import Mathlib

/-
Shallow embedding of the qiita_client repository (qiita_client/qiita_client.py
and qiita_client/plugin.py) for verification of its specification.

Conventions of the embedding:
- Python exceptions become the PyError inductive; fallible code returns Except.
- A parsed JSON object body is modelled as an association list of string pairs;
  a body that fails to parse as JSON is none.
- Network effects are modelled by an environment: each raw HTTP attempt is an
  Attempt value (either a connection-level failure or a Response supplied by
  the environment), scheduled per send.
- Traces of observable calls (job-info fetch, heartbeat start, completion post,
  authentication) are returned alongside results where claims speak about them.
-/

namespace Qiita

/-- Python exceptions that appear in the two source files. -/
inductive PyError where
  | notFound (msg : String)
  | forbidden (msg : String)
  | badRequest (msg : String)
  | runtime (msg : String)
  | valueError (msg : String)
  | keyError (key : String)
  | connectionError
  | attributeError (attr : String)
  | ioError (path : String)
  | configError (option : String)
deriving DecidableEq

/-- A parsed JSON object body: association list of key-value string pairs. -/
abbrev Body := List (String × String)

/-- An HTTP response: status code, parsed JSON object body (none when the body
does not parse as JSON), and raw text. -/
structure Response where
  status : Nat
  body : Option Body
  text : String
deriving DecidableEq

/-- The result of one raw send: either a connection-level failure (the server
is unreachable, requests raises ConnectionError) or a response. -/
inductive Attempt where
  | connErr
  | resp (r : Response)
deriving DecidableEq

/-- qiita_client.ArtifactInfo: output name, artifact type, and the list of
(filepath, filepath type) pairs. -/
structure ArtifactInfo where
  output_name : String
  artifact_type : String
  files : List (String × String)
deriving DecidableEq

/-- Python set equality of two lists of pairs: mutual membership, mirroring
set(self.files) != set(other.files) in ArtifactInfo.eq below. -/
def set_eq_files (x y : List (String × String)) : Bool :=
  x.all (fun p => y.contains p) && y.all (fun p => x.contains p)

/-- ArtifactInfo.eq embeds ArtifactInfo.__eq__ (both operands already have the
same type here): false when output_name, artifact_type differ or the file
lists differ as sets, true otherwise. -/
def artifact_info_eq (a b : ArtifactInfo) : Bool :=
  if a.output_name != b.output_name || a.artifact_type != b.artifact_type
      || !(set_eq_files a.files b.files) then
    false
  else
    true

/-- ArtifactInfo.__ne__: not self.__eq__(other). -/
def artifact_info_ne (a b : ArtifactInfo) : Bool :=
  !(artifact_info_eq a b)

/-- Value of one entry of the artifacts mapping in the completion payload. -/
structure ArtifactEntry where
  artifact_type : String
  filepaths : List (String × String)
deriving DecidableEq

/-- Python dict insertion d[k] = v on an insertion-ordered association list:
replace the value in place when the key is present, append otherwise. -/
def dict_insert (d : List (String × ArtifactEntry)) (k : String)
    (v : ArtifactEntry) : List (String × ArtifactEntry) :=
  if (d.lookup k).isSome then
    d.map fun p => if p.1 == k then (k, v) else p
  else
    d ++ [(k, v)]

/-- The dict comprehension of _format_payload: a_info.output_name mapped to
the entry built from a_info, over the artifact list in order. -/
def build_artifacts_dict (l : List ArtifactInfo) : List (String × ArtifactEntry) :=
  l.foldl (fun d ai => dict_insert d ai.output_name ⟨ai.artifact_type, ai.files⟩) []

/-- The completion payload. error is Option String: none models Python None,
some s a string. artifacts is none when the Python value is None. -/
structure Payload where
  success : Bool
  error : Option String
  artifacts : Option (List (String × ArtifactEntry))
deriving DecidableEq

/-- qiita_client._format_payload. The artifacts mapping is built only when
success is truthy and artifacts_info is truthy (not None and non-empty);
error is the given message when success is false, else the empty string. -/
def format_payload (success : Bool) (error_msg : Option String)
    (artifacts_info : Option (List ArtifactInfo)) : Payload :=
  let artifacts : Option (List (String × ArtifactEntry)) :=
    match success, artifacts_info with
    | true, some l => if l.isEmpty then none else some (build_artifacts_dict l)
    | _, _ => none
  ⟨success, if success then some "" else error_msg, artifacts⟩

/-- The error_description string that triggers a token refresh. -/
def token_expired_msg : String := "Oauth2 error: token has timed out"

/-- Environment for one call of _request_oauth2: the outcome of the first raw
send, whether re-authentication (QiitaClient._fetch_token) would get HTTP 200,
and the outcome of the resent request after a refresh. -/
structure AttemptInput where
  first : Attempt
  refreshOk : Bool
  second : Attempt
deriving DecidableEq

/-- Result of _request_oauth2: how many token refreshes and raw sends
happened, and the response or the propagated exception. -/
structure OauthResult where
  refreshes : Nat
  sends : Nat
  outcome : Except PyError Response

/-- QiitaClient._request_oauth2: send; on a 400 response, parse the body
(ValueError yields None); when the parsed body is truthy, read its
error_description (a missing key raises KeyError); when it equals the
token-expired message, fetch a new token (a non-200 authentication response
raises ValueError) and resend exactly once, returning the second response
whatever it is. -/
def request_oauth2 (a : AttemptInput) : OauthResult :=
  match a.first with
  | .connErr => ⟨0, 1, .error .connectionError⟩
  | .resp r =>
    if r.status == 400 then
      match r.body with
      | none => ⟨0, 1, .ok r⟩
      | some obj =>
        if obj.isEmpty then ⟨0, 1, .ok r⟩
        else
          match obj.lookup "error_description" with
          | none => ⟨0, 1, .error (.keyError "error_description")⟩
          | some d =>
            if d == token_expired_msg then
              if a.refreshOk then
                match a.second with
                | .connErr => ⟨1, 2, .error .connectionError⟩
                | .resp r2 => ⟨1, 2, .ok r2⟩
              else ⟨1, 1, .error (.valueError "Can\x27t authenticate with the Qiita server")⟩
            else ⟨0, 1, .ok r⟩
    else ⟨0, 1, .ok r⟩

instance {ε α : Type} [DecidableEq ε] [DecidableEq α] : DecidableEq (Except ε α) :=
  fun x y =>
    match x, y with
    | .ok a, .ok b =>
      if h : a = b then .isTrue (by rw [h]) else .isFalse (by simp [h])
    | .error a, .error b =>
      if h : a = b then .isTrue (by rw [h]) else .isFalse (by simp [h])
    | .ok _, .error _ => .isFalse (by simp)
    | .error _, .ok _ => .isFalse (by simp)

/-- Result of _request_retry: number of loop iterations executed (calls of
_request_oauth2) and the returned JSON body or raised exception. -/
structure RetryResult where
  attemptsUsed : Nat
  outcome : Except PyError (Option Body)
deriving DecidableEq

/-- The RuntimeError message raised when the retry budget is exhausted,
mirroring the format string of _request_retry. -/
def request_failed_msg (name url : String) (r : Response) : String :=
  "Request \x27" ++ name ++ " " ++ url ++ "\x27 did not succeed. Status code: "
    ++ toString r.status ++ ". Message: " ++ r.text

/-- The status classification of _request_retry: 404, 403 and 400 raise typed
errors, 200 returns the parsed body (None when parsing raises ValueError);
any other status is left unclassified (none) and falls through to the retry. -/
def classify (r : Response) : Option (Except PyError (Option Body)) :=
  if r.status == 404 then some (.error (.notFound r.text))
  else if r.status == 403 then some (.error (.forbidden r.text))
  else if r.status == 400 then some (.error (.badRequest r.text))
  else if r.status == 200 then some (.ok r.body)
  else none

/-- The while loop of _request_retry: i attempts done so far, fuel is the
remaining retries counter; att supplies the environment of each iteration.
An exception from _request_oauth2 propagates immediately; a classified status
is terminal; otherwise the loop repeats, remembering the last response for
the final RuntimeError. The fuel-0 case is reached only after an iteration,
as in the source where retries starts at 2. -/
def request_retry_loop (name url : String) (att : Nat → AttemptInput) :
    Nat → Nat → Response → RetryResult
  | i, 0, last => ⟨i, .error (.runtime (request_failed_msg name url last))⟩
  | i, fuel + 1, _ =>
    match (request_oauth2 (att i)).outcome with
    | .error e => ⟨i + 1, .error e⟩
    | .ok r =>
      match classify r with
      | some out => ⟨i + 1, out⟩
      | none => request_retry_loop name url att (i + 1) fuel r

/-- QiitaClient._request_retry: prepend the server url, set retries to 2 and
run the loop. The initial Response argument is a dummy, never inspected since
the loop body runs at least once. -/
def request_retry (name server_url path : String) (att : Nat → AttemptInput) :
    RetryResult :=
  request_retry_loop name (server_url ++ path) att 0 2 ⟨0, none, ""⟩

/-- The JSON PATCH body built by QiitaClient.patch: op and path always, value
and from exactly when supplied. -/
def patch_body_data (op path : String) (value from_p : Option String) : Body :=
  [("op", op), ("path", path)]
    ++ (match value with | some v => [("value", v)] | none => [])
    ++ (match from_p with | some f => [("from", f)] | none => [])

/-- Result of QiitaClient.patch: raw sends performed, the data body handed to
the transport (none when validation failed before any network call), and the
outcome. -/
structure PatchResult where
  sends : Nat
  sentData : Option Body
  outcome : Except PyError (Option Body)
deriving DecidableEq

/-- QiitaClient.patch: validate the op/value/from_p contract, raising
ValueError before any network call on violation; otherwise build the data
body and delegate to _request_retry. -/
def patch (server_url url op path : String) (value from_p : Option String)
    (att : Nat → AttemptInput) : PatchResult :=
  if (["add", "replace", "test"].contains op) && value.isNone then
    ⟨0, none, .error (.valueError
      ("Operation \x27" ++ op ++ "\x27 requires the paramater \x27value\x27"))⟩
  else if (["move", "copy"].contains op) && from_p.isNone then
    ⟨0, none, .error (.valueError
      ("Operation \x27" ++ op ++ "\x27 requires the parameter \x27from_p\x27"))⟩
  else
    let r := request_retry "patch" server_url url att
    ⟨r.attemptsUsed, some (patch_body_data op path value from_p), r.outcome⟩

/-- Outcome of one qclient.post inside the heartbeat loop: success, a
connection-level failure, a QiitaClientError raised by the transport, or any
other exception with its message. -/
inductive HbOutcome where
  | success
  | connError
  | clientError (e : PyError)
  | otherError (msg : String)
deriving DecidableEq

/-- One iteration environment of the heartbeat loop: the value of the shared
JOB_COMPLETED flag observed at the loop head, and the outcome of the post. -/
structure HbStep where
  jobCompleted : Bool
  outcome : HbOutcome
deriving DecidableEq

/-- Result of the heartbeat loop: iterations executed, the sleeps performed in
order (in seconds), the exception raised out of the loop if any, and the
final value of the retries budget. -/
structure HbResult where
  iterations : Nat
  sleeps : List Nat
  raised : Option PyError
  finalRetries : Nat
deriving DecidableEq

/-- The while loop of _heartbeat over a schedule of iteration environments:
stop when the completed flag is set or the budget is 0; a successful post
resets the budget to 2 and sleeps 30; a connection failure sleeps 300,
decrements the budget and sleeps 30; a QiitaClientError propagates; any other
exception is wrapped into a RuntimeError. A schedule that runs out leaves the
loop state as is. -/
def heartbeat_loop : List HbStep → Nat → HbResult
  | [], retries => ⟨0, [], none, retries⟩
  | s :: rest, retries =>
    if s.jobCompleted || retries == 0 then ⟨0, [], none, retries⟩
    else
      match s.outcome with
      | .success =>
        let r := heartbeat_loop rest 2
        ⟨r.iterations + 1, 30 :: r.sleeps, r.raised, r.finalRetries⟩
      | .connError =>
        let r := heartbeat_loop rest (retries - 1)
        ⟨r.iterations + 1, 300 :: 30 :: r.sleeps, r.raised, r.finalRetries⟩
      | .clientError e => ⟨1, [], some e, retries⟩
      | .otherError m =>
        ⟨1, [], some (.runtime ("Error executing heartbeat: " ++ m)), retries⟩

/-- qiita_client._heartbeat: run the loop with an initial retries budget of 2. -/
def heartbeat (steps : List HbStep) : HbResult :=
  heartbeat_loop steps 2

/-- The job information fetched from the server: the command name and an
opaque parameters blob, as consumed by BaseQiitaPlugin.__call__. -/
structure JobInfo where
  command : String
  parameters : String
deriving DecidableEq

/-- Environment of the job-execution phase of BaseQiitaPlugin.__call__: the
outcome of get_job_info, of the first heartbeat post inside start_heartbeat,
and of the task call (an exception is captured as the formatted traceback
text). -/
structure JobEnv where
  jobInfoResult : Except PyError JobInfo
  heartbeatStart : Except PyError Unit
  taskResult : Except String (Bool × Option (List ArtifactInfo) × Option String)

/-- Observable calls issued by the plugin coordinator. -/
inductive PluginAction where
  | authenticate
  | getJobInfo (jobId : String)
  | startHeartbeat (jobId : String)
  | completeJob (jobId : String) (payload : Payload)
deriving DecidableEq

/-- The job-execution phase of BaseQiitaPlugin.__call__ (the branch for a job
id other than the register sentinel): fetch the job info (errors propagate
with no completion call), start the heartbeat (errors propagate), look up the
task in the command table (a missing name raises KeyError), run the task
capturing any exception into an error message, and complete the job exactly
once with the resulting payload. -/
def run_job (task_dict : List String) (env : JobEnv) (jobId : String) :
    Except PyError Unit × List PluginAction :=
  match env.jobInfoResult with
  | .error e => (.error e, [.getJobInfo jobId])
  | .ok info =>
    match env.heartbeatStart with
    | .error e => (.error e, [.getJobInfo jobId, .startHeartbeat jobId])
    | .ok _ =>
      if task_dict.contains info.command then
        match env.taskResult with
        | .ok (success, artifacts_info, error_msg) =>
          (.ok (), [.getJobInfo jobId, .startHeartbeat jobId,
                    .completeJob jobId (format_payload success error_msg artifacts_info)])
        | .error excStr =>
          (.ok (), [.getJobInfo jobId, .startHeartbeat jobId,
                    .completeJob jobId (format_payload false
                      (some ("Error executing " ++ info.command ++ ":\n" ++ excStr))
                      none)])
      else (.error (.keyError info.command), [.getJobInfo jobId, .startHeartbeat jobId])

/-- Number of completion calls in a trace. -/
def complete_count (tr : List PluginAction) : Nat :=
  tr.countP fun a => match a with | .completeJob _ _ => true | _ => false

/-- The attributes BaseQiitaPlugin.__init__ assigns on self (the command
table is kept separately): name, version, decription (the source assigns the
misspelled attribute), conf_fp. -/
structure BaseQiitaPlugin where
  name : String
  version : String
  decription : String
  conf_fp : String
  task_dict : List String

/-- The default configuration file path used when conf_fp is not given,
standing for join(dirname(abspath(file)), support_files, config_file.cfg). -/
def default_conf_fp : String := "support_files/config_file.cfg"

/-- BaseQiitaPlugin.__init__. -/
def plugin_init (name version description : String) (conf_fp : Option String) :
    BaseQiitaPlugin :=
  ⟨name, version, description, conf_fp.getD default_conf_fp, []⟩

/-- Python attribute lookup on a BaseQiitaPlugin instance, restricted to the
string-valued attributes assigned by the constructor; any other attribute
name raises AttributeError. -/
def plugin_getattr (p : BaseQiitaPlugin) (attr : String) : Option String :=
  if attr == "name" then some p.name
  else if attr == "version" then some p.version
  else if attr == "decription" then some p.decription
  else if attr == "conf_fp" then some p.conf_fp
  else none

/-- Environment of BaseQiitaPlugin.__call__ beyond the plugin object itself:
whether opening the configuration file succeeds, the three config lookups
(none models a missing option, which raises), whether authentication returns
HTTP 200, and the job-execution environment. -/
structure World where
  confFileOk : Bool
  clientId : Option String
  clientSecret : Option String
  serverCert : Option String
  authOk : Bool
  jobEnv : JobEnv

/-- The body of BaseQiitaPlugin.__call__ after the configuration path has
been read from the instance: open and parse the config, build the
QiitaClient (whose constructor authenticates, raising ValueError on a non-200
response), then either self-register (the _install method is commented out in
the source, so the lookup raises AttributeError) or run the job phase. -/
def plugin_call_body (p : BaseQiitaPlugin) (w : World) (jobId : String) :
    Except PyError Unit × List PluginAction :=
  if !w.confFileOk then (.error (.ioError "conf"), [])
  else
    match w.clientId with
    | none => (.error (.configError "CLIENT_ID"), [])
    | some _ =>
      match w.clientSecret with
      | none => (.error (.configError "CLIENT_SECRET"), [])
      | some _ =>
        match w.serverCert with
        | none => (.error (.configError "SERVER_CERT"), [])
        | some _ =>
          if !w.authOk then
            (.error (.valueError "Can\x27t authenticate with the Qiita server"),
             [.authenticate])
          else if jobId == "register" then
            (.error (.attributeError "_install"), [.authenticate])
          else
            let r := run_job p.task_dict w.jobEnv jobId
            (r.1, .authenticate :: r.2)

/-- BaseQiitaPlugin.__call__: the first statement opens the configuration
file at self.onf_fp, an attribute lookup on the instance; if it fails the
AttributeError propagates before anything else happens. -/
def plugin_call (p : BaseQiitaPlugin) (w : World)
    (_server_url jobId _output_dir : String) : Except PyError Unit × List PluginAction :=
  match plugin_getattr p "onf_fp" with
  | none => (.error (.attributeError "onf_fp"), [])
  | some _ => plugin_call_body p w jobId

/-- Concrete environments used by witness theorems. -/
def artifact_b : ArtifactInfo :=
  ⟨"otu_table", "BIOM", [("/tmp/out/table.biom", "biom")]⟩

/-- Two artifact descriptions differing only in the order of their file lists. -/
def artifact_w1 : ArtifactInfo := ⟨"o", "t", [("f1", "x"), ("f2", "y")]⟩

/-- Same files as artifact_w1 in reversed order. -/
def artifact_w2 : ArtifactInfo := ⟨"o", "t", [("f2", "y"), ("f1", "x")]⟩

/-- Attempt environment whose 400 response carries the token-expired body and
whose resend gets a 200 response. -/
def token_expired_attempt : AttemptInput :=
  ⟨.resp ⟨400, some [("error_description", token_expired_msg)], "err"⟩, true,
   .resp ⟨200, some [], "ok"⟩⟩

/-- Schedule whose every attempt yields a 404 response. -/
def att404 : Nat → AttemptInput :=
  fun _ => ⟨.resp ⟨404, none, "not found"⟩, true, .connErr⟩

/-- Schedule whose every attempt yields a 200 response. -/
def att_ok : Nat → AttemptInput :=
  fun _ => ⟨.resp ⟨200, none, ""⟩, true, .connErr⟩

/-- Schedule whose first attempt hits a connection-level failure while the
second would get a 200 response. -/
def conn_fail_schedule : Nat → AttemptInput :=
  fun i =>
    if i == 0 then ⟨.connErr, true, .connErr⟩
    else ⟨.resp ⟨200, some [], "ok"⟩, true, .connErr⟩

/-- A 500 response. -/
def resp500 : Response := ⟨500, none, "server error"⟩

/-- Schedule whose every attempt yields the 500 response. -/
def att500 : Nat → AttemptInput := fun _ => ⟨.resp resp500, true, .connErr⟩

/-- Job environment whose task raises an exception with traceback text boom. -/
def env_task_fail : JobEnv := ⟨.ok ⟨"cmdA", "params"⟩, .ok (), .error "boom"⟩

/-- Looking a key up in an appended association list skips a first part that
does not contain it. -/
theorem lookup_append_none {β : Type} (l1 l2 : List (String × β)) (k : String)
    (h : l1.lookup k = none) : (l1 ++ l2).lookup k = l2.lookup k := by
  induction l1 with
  | nil => rfl
  | cons p t ih =>
    obtain ⟨k2, v⟩ := p
    by_cases hk : k = k2
    · subst hk; simp [List.lookup] at h
    · have hb : (k == k2) = false := beq_eq_false_iff_ne.mpr hk
      simp only [List.cons_append, List.lookup, hb] at h ⊢
      exact ih h

/-- Folding dict_insert over artifacts with pairwise distinct output names and
an accumulator free of those names appends one entry per artifact. -/
theorem build_dict_go (l : List ArtifactInfo) :
    ∀ acc : List (String × ArtifactEntry),
      (∀ ai ∈ l, acc.lookup ai.output_name = none) →
      (l.map ArtifactInfo.output_name).Nodup →
      l.foldl (fun d ai => dict_insert d ai.output_name ⟨ai.artifact_type, ai.files⟩) acc
        = acc ++ l.map (fun ai => (ai.output_name, ⟨ai.artifact_type, ai.files⟩)) := by
  induction l with
  | nil => intro acc _ _; simp
  | cons a t ih =>
    intro acc hdisj hnodup
    obtain ⟨hna, hnt⟩ := List.nodup_cons.mp hnodup
    have ha : acc.lookup a.output_name = none := hdisj a (by simp)
    have hins : dict_insert acc a.output_name ⟨a.artifact_type, a.files⟩
        = acc ++ [(a.output_name, ⟨a.artifact_type, a.files⟩)] := by
      simp [dict_insert, ha]
    have hd : ∀ ai ∈ t,
        (acc ++ [(a.output_name, (⟨a.artifact_type, a.files⟩ : ArtifactEntry))]).lookup
            ai.output_name = none := by
      intro ai hm
      rw [lookup_append_none _ _ _ (hdisj ai (List.mem_cons_of_mem a hm))]
      have hne : ai.output_name ≠ a.output_name := by
        intro he
        exact hna (he ▸ List.mem_map_of_mem ArtifactInfo.output_name hm)
      simp [List.lookup, beq_eq_false_iff_ne.mpr hne]
    simp only [List.foldl_cons, hins]
    rw [ih _ hd hnt]
    simp

/-- With pairwise distinct output names the artifacts dict of _format_payload
is the list of per-artifact entries in order. -/
theorem build_dict_eq_map (l : List ArtifactInfo)
    (h : (l.map ArtifactInfo.output_name).Nodup) :
    build_artifacts_dict l
      = l.map fun ai => (ai.output_name, (⟨ai.artifact_type, ai.files⟩ : ArtifactEntry)) := by
  have := build_dict_go l [] (by intro ai _; rfl) h
  simpa [build_artifacts_dict] using this

/-- Looking up an artifact of the list by its output name in the per-artifact
entry list returns that artifact's entry, given distinct output names. -/
theorem lookup_map_artifacts (l : List ArtifactInfo)
    (h : (l.map ArtifactInfo.output_name).Nodup) :
    ∀ ai ∈ l,
      (l.map fun a2 => (a2.output_name, (⟨a2.artifact_type, a2.files⟩ : ArtifactEntry))).lookup
          ai.output_name
        = some ⟨ai.artifact_type, ai.files⟩ := by
  induction l with
  | nil => intro ai hm; cases hm
  | cons a t ih =>
    intro ai hm
    obtain ⟨hna, hnt⟩ := List.nodup_cons.mp h
    rcases List.mem_cons.mp hm with rfl | hmt
    · simp [List.lookup]
    · have hne : ai.output_name ≠ a.output_name := by
        intro he
        exact hna (he ▸ List.mem_map_of_mem ArtifactInfo.output_name hmt)
      simp only [List.map_cons, List.lookup,
        beq_eq_false_iff_ne.mpr hne]
      exact ih hnt ai hmt

/-- Claim C1: for the completion payload codec, when success is true the error
field is the empty string; when success is false the artifacts field is
absent whatever the artifact argument was; and when success is true and the
artifact list is non-empty (its output names being distinct, as they key the
mapping), artifacts is the mapping that sends each artifact's output name to
the entry holding that artifact's type and filepaths. -/
theorem C1_format_payload :
    (∀ (e : Option String) (a : Option (List ArtifactInfo)),
        (format_payload true e a).error = some "") ∧
    (∀ (e : Option String) (a : Option (List ArtifactInfo)),
        (format_payload false e a).artifacts = none) ∧
    (∀ (e : Option String) (l : List ArtifactInfo),
        l ≠ [] → (l.map ArtifactInfo.output_name).Nodup →
        (format_payload true e (some l)).artifacts = some (build_artifacts_dict l) ∧
        ∀ ai ∈ l, (build_artifacts_dict l).lookup ai.output_name
          = some ⟨ai.artifact_type, ai.files⟩) := by
  refine ⟨?_, ?_, ?_⟩
  · intro e a; cases a <;> rfl
  · intro e a; cases a <;> rfl
  · intro e l hne hnodup
    constructor
    · cases l with
      | nil => exact absurd rfl hne
      | cons a t => simp [format_payload]
    · intro ai hm
      rw [build_dict_eq_map l hnodup]
      exact lookup_map_artifacts l hnodup ai hm

/-- Witness for C1 at the spec's Scenario B artifact list. -/
theorem C1_format_payload_witness :
    (format_payload true none (some [artifact_b])).artifacts
        = some (build_artifacts_dict [artifact_b]) ∧
    (build_artifacts_dict [artifact_b]).lookup "otu_table"
        = some ⟨"BIOM", [("/tmp/out/table.biom", "biom")]⟩ := by
  have h := C1_format_payload.2.2 none [artifact_b] (by simp) (by simp)
  exact ⟨h.1, h.2 artifact_b (by simp)⟩

/-- Claim C10: when success is false and no error message is supplied, the
payload's error field is None (null), not a string. -/
theorem C10_error_null :
    ∀ a : Option (List ArtifactInfo),
      format_payload false none a = ⟨false, none, none⟩ := by
  intro a; cases a <;> rfl

/-- Claim C6: in the heartbeat loop a connection-level failure sleeps 300
seconds (then the regular 30) and decrements the budget; a successful call
resets the budget to 2 (then sleeps the regular 30); the loop stops when the
completed flag is observed true or the budget is 0; and under three
consecutive connection failures with the flag never set, the loop runs
exactly 2 iterations, stopping after the second failure. -/
theorem C6_heartbeat :
    (∀ (rest : List HbStep) (n : Nat),
        heartbeat_loop (⟨false, .connError⟩ :: rest) (n + 1)
          = ⟨(heartbeat_loop rest n).iterations + 1,
             300 :: 30 :: (heartbeat_loop rest n).sleeps,
             (heartbeat_loop rest n).raised,
             (heartbeat_loop rest n).finalRetries⟩) ∧
    (∀ (rest : List HbStep) (n : Nat),
        heartbeat_loop (⟨false, .success⟩ :: rest) (n + 1)
          = ⟨(heartbeat_loop rest 2).iterations + 1,
             30 :: (heartbeat_loop rest 2).sleeps,
             (heartbeat_loop rest 2).raised,
             (heartbeat_loop rest 2).finalRetries⟩) ∧
    (∀ (o : HbOutcome) (rest : List HbStep) (n : Nat),
        heartbeat_loop (⟨true, o⟩ :: rest) n = ⟨0, [], none, n⟩) ∧
    (∀ (s : HbStep) (rest : List HbStep),
        heartbeat_loop (s :: rest) 0 = ⟨0, [], none, 0⟩) ∧
    heartbeat [⟨false, .connError⟩, ⟨false, .connError⟩, ⟨false, .connError⟩]
      = ⟨2, [300, 30, 300, 30], none, 0⟩ := by
  refine ⟨?_, ?_, ?_, ?_, rfl⟩
  · intro rest n; rfl
  · intro rest n; rfl
  · intro o rest n; rfl
  · intro s rest
    obtain ⟨jc, oc⟩ := s
    cases jc <;> rfl

/-- Claim C9: for every plugin built by the constructor and every environment
and argument triple, the coordinator entry point fails with AttributeError on
the attribute onf_fp (the constructor only assigns conf_fp) with an empty
action trace: no authentication, job-info fetch, heartbeat or completion call
has happened. -/
theorem C9_onf_fp_attribute_error :
    ∀ (nm ver desc : String) (cfp : Option String) (w : World)
      (server_url jobId output_dir : String),
      plugin_call (plugin_init nm ver desc cfp) w server_url jobId output_dir
        = (.error (.attributeError "onf_fp"), []) := by
  intro nm ver desc cfp w su j od
  rfl

/-- Bool computation of Python set equality of two pair lists agrees with
mutual membership. -/
theorem set_eq_files_iff (x y : List (String × String)) :
    set_eq_files x y = true ↔ ∀ p, p ∈ x ↔ p ∈ y := by
  simp only [set_eq_files, Bool.and_eq_true, List.all_eq_true]
  constructor
  · rintro ⟨h1, h2⟩ p
    constructor
    · intro hp; simpa using h1 p hp
    · intro hp; simpa using h2 p hp
  · intro h
    constructor
    · intro p hp; simpa using (h p).mp hp
    · intro p hp; simpa using (h p).mpr hp

/-- Claim C8: two ArtifactInfo values are equal exactly when they share the
output name, the artifact type, and the same set of (filepath, filetype)
pairs, the order of the file lists being irrelevant; and the inequality
operator is the exact Boolean negation of equality. -/
theorem C8_artifact_equality :
    ∀ a b : ArtifactInfo,
      (artifact_info_eq a b = true ↔
        (a.output_name = b.output_name ∧ a.artifact_type = b.artifact_type ∧
          ∀ p, p ∈ a.files ↔ p ∈ b.files)) ∧
      artifact_info_ne a b = !(artifact_info_eq a b) := by
  intro a b
  refine ⟨?_, rfl⟩
  rw [show artifact_info_eq a b
      = !(a.output_name != b.output_name || a.artifact_type != b.artifact_type
          || !(set_eq_files a.files b.files)) from by
    unfold artifact_info_eq
    cases a.output_name != b.output_name || a.artifact_type != b.artifact_type
        || !(set_eq_files a.files b.files) <;> simp]
  simp only [Bool.not_or, Bool.and_eq_true, Bool.not_eq_eq_eq_not, Bool.not_not,
    bne, Bool.not_eq_true', beq_iff_eq]
  rw [set_eq_files_iff, and_assoc]

/-- Witness for C8: two artifacts with the same fields and the file lists in
opposite orders are equal, and inequality is the negation. -/
theorem C8_artifact_equality_witness :
    artifact_info_eq artifact_w1 artifact_w2 = true ∧
    artifact_info_ne artifact_w1 artifact_w2
      = !(artifact_info_eq artifact_w1 artifact_w2) := by
  refine ⟨?_, (C8_artifact_equality artifact_w1 artifact_w2).2⟩
  refine (C8_artifact_equality artifact_w1 artifact_w2).1.mpr ⟨rfl, rfl, ?_⟩
  intro p
  constructor <;> intro hp <;>
    simp only [artifact_w1, artifact_w2, List.mem_cons, List.not_mem_nil, or_false] at hp ⊢ <;>
    tauto

/-- Claim C2: a 400 response whose parsed body carries the token-expired
error description triggers exactly one token refresh and exactly one resend
(a second raw send), whatever the resend returns; a 400 response whose body
does not parse as JSON, or parses without that description, never triggers a
refresh; a non-400 response never triggers a refresh. -/
theorem C2_token_refresh :
    ∀ (a : AttemptInput) (r : Response) (obj : Body),
      a.first = .resp r →
      ((r.status = 400 → r.body = some obj →
          obj.lookup "error_description" = some token_expired_msg →
          a.refreshOk = true →
          (request_oauth2 a).refreshes = 1 ∧ (request_oauth2 a).sends = 2) ∧
       (r.status = 400 → r.body = none → request_oauth2 a = ⟨0, 1, .ok r⟩) ∧
       (r.status = 400 → r.body = some obj →
          (∀ d, obj.lookup "error_description" = some d → d ≠ token_expired_msg) →
          (request_oauth2 a).refreshes = 0 ∧ (request_oauth2 a).sends = 1) ∧
       (r.status ≠ 400 → request_oauth2 a = ⟨0, 1, .ok r⟩)) := by
  intro a r obj hfirst
  refine ⟨?_, ?_, ?_, ?_⟩
  · intro h400 hbody hlook hrok
    have hempty : obj.isEmpty = false := by
      cases obj with
      | nil => simp [List.lookup] at hlook
      | cons p t => rfl
    cases hsec : a.second <;>
      simp [request_oauth2, hfirst, h400, hbody, hempty, hlook, hrok, hsec]
  · intro h400 hbody
    simp [request_oauth2, hfirst, h400, hbody]
  · intro h400 hbody hall
    cases hl : obj.lookup "error_description" with
    | none =>
      cases hempty : obj.isEmpty <;>
        simp [request_oauth2, hfirst, h400, hbody, hempty, hl]
    | some d =>
      have hempty : obj.isEmpty = false := by
        cases obj with
        | nil => simp [List.lookup] at hl
        | cons p t => rfl
      have hbeq : (d == token_expired_msg) = false :=
        beq_eq_false_iff_ne.mpr (hall d hl)
      simp [request_oauth2, hfirst, h400, hbody, hempty, hl, hbeq]
  · intro hne
    have hbeq : (r.status == 400) = false := beq_eq_false_iff_ne.mpr hne
    simp [request_oauth2, hfirst, hbeq]

/-- Witness for C2: a 400 response carrying the token-expired description,
with a 200 resend, performs exactly one refresh and two sends. -/
theorem C2_token_refresh_witness :
    (request_oauth2 token_expired_attempt).refreshes = 1 ∧
    (request_oauth2 token_expired_attempt).sends = 2 :=
  (C2_token_refresh token_expired_attempt
      ⟨400, some [("error_description", token_expired_msg)], "err"⟩
      [("error_description", token_expired_msg)] rfl).1 rfl rfl rfl rfl

/-- Claim C5: the transport classifies the response of the (possibly
token-refresh-resent) send as: 404 raises NotFoundError, 403 raises
ForbiddenError, 400 raises BadRequestError, each terminal after a single
loop iteration; 200 succeeds returning the parsed body, an absent or
unparseable body yielding none rather than an error. -/
theorem C5_status_classification :
    ∀ (name surl path : String) (att : Nat → AttemptInput) (r : Response),
      (request_oauth2 (att 0)).outcome = .ok r →
      ((r.status = 404 →
          request_retry name surl path att = ⟨1, .error (.notFound r.text)⟩) ∧
       (r.status = 403 →
          request_retry name surl path att = ⟨1, .error (.forbidden r.text)⟩) ∧
       (r.status = 400 →
          request_retry name surl path att = ⟨1, .error (.badRequest r.text)⟩) ∧
       (r.status = 200 →
          request_retry name surl path att = ⟨1, .ok r.body⟩)) := by
  intro name surl path att r h
  refine ⟨?_, ?_, ?_, ?_⟩ <;> intro hs <;>
    simp [request_retry, request_retry_loop, h, classify, hs]

/-- Witness for C5: a schedule of 404 responses raises NotFoundError after
one attempt. -/
theorem C5_status_classification_witness :
    request_retry "get" "https://server" "/qiita_db/jobs/x" att404
      = ⟨1, .error (.notFound "not found")⟩ :=
  (C5_status_classification "get" "https://server" "/qiita_db/jobs/x" att404
      ⟨404, none, "not found"⟩ rfl).1 rfl

/-- Claim C3 counterexample: on a schedule whose first attempt hits a
connection-level failure and whose second attempt would return 200, the
transport does not retry: the connection error propagates after a single
attempt, and no RequestFailedError carrying method, path, status and text is
raised — refuting the claim that connection-level failures are retried up to
2 total attempts. -/
theorem C3_conn_error_not_retried :
    request_retry "get" "https://server" "/qiita_db/jobs/x" conn_fail_schedule
      = ⟨1, .error .connectionError⟩ := rfl

/-- Claim C3 as amended: the outer retry loop retries on a response whose
status is unclassified (none of 404, 403, 400, 200, e.g. 500), up to 2 total
attempts; when both attempts end that way, the call raises the RuntimeError
carrying the method name, the full url, the last status code and the last
response text; a connection-level failure is not handled by this loop and
propagates immediately. -/
theorem C3_unclassified_retry :
    (∀ r : Response,
        classify r = none ↔
          (r.status ≠ 404 ∧ r.status ≠ 403 ∧ r.status ≠ 400 ∧ r.status ≠ 200)) ∧
    (∀ (name surl path : String) (att : Nat → AttemptInput) (r1 r2 : Response),
        (request_oauth2 (att 0)).outcome = .ok r1 →
        (request_oauth2 (att 1)).outcome = .ok r2 →
        classify r1 = none → classify r2 = none →
        request_retry name surl path att
          = ⟨2, .error (.runtime (request_failed_msg name (surl ++ path) r2))⟩) ∧
    (∀ (name surl path : String) (att : Nat → AttemptInput),
        (request_oauth2 (att 0)).outcome = .error .connectionError →
        request_retry name surl path att = ⟨1, .error .connectionError⟩) := by
  refine ⟨?_, ?_, ?_⟩
  · intro r
    unfold classify
    split_ifs with h1 h2 h3 h4 <;> simp_all
  · intro name surl path att r1 r2 h1 h2 hc1 hc2
    simp [request_retry, request_retry_loop, h1, h2, hc1, hc2]
  · intro name surl path att h
    simp [request_retry, request_retry_loop, h]

/-- Witness for the amended C3: two 500 responses exhaust the 2-attempt
budget and raise the RuntimeError built from the last response. -/
theorem C3_unclassified_retry_witness :
    request_retry "get" "https://server" "/qiita_db/jobs/x" att500
      = ⟨2, .error (.runtime
          (request_failed_msg "get" ("https://server" ++ "/qiita_db/jobs/x") resp500))⟩ :=
  C3_unclassified_retry.2.1 "get" "https://server" "/qiita_db/jobs/x" att500
    resp500 resp500 rfl rfl rfl rfl

/-- Claim C4: in the job-execution phase of the coordinator, a NotFoundError
from the job-info fetch propagates with no completion call; an exception
raised by the job function is captured as text and the job is completed with
success false, that text as the error message and no artifacts; a normal
return of the job function is reported verbatim; and on both of these exit
paths the completion call is issued exactly once. -/
theorem C4_coordinator :
    ∀ (td : List String) (env : JobEnv) (jobId m excStr : String) (info : JobInfo)
      (s : Bool) (arts : Option (List ArtifactInfo)) (err : Option String),
      ((env.jobInfoResult = .error (.notFound m) →
          run_job td env jobId = (.error (.notFound m), [.getJobInfo jobId]) ∧
          complete_count (run_job td env jobId).2 = 0) ∧
       (env.jobInfoResult = .ok info → env.heartbeatStart = .ok () →
          td.contains info.command = true → env.taskResult = .error excStr →
          run_job td env jobId
            = (.ok (), [.getJobInfo jobId, .startHeartbeat jobId,
                .completeJob jobId (format_payload false
                  (some ("Error executing " ++ info.command ++ ":\n" ++ excStr))
                  none)]) ∧
          complete_count (run_job td env jobId).2 = 1) ∧
       (env.jobInfoResult = .ok info → env.heartbeatStart = .ok () →
          td.contains info.command = true → env.taskResult = .ok (s, arts, err) →
          run_job td env jobId
            = (.ok (), [.getJobInfo jobId, .startHeartbeat jobId,
                .completeJob jobId (format_payload s err arts)]) ∧
          complete_count (run_job td env jobId).2 = 1) ∧
       (∀ t : String, format_payload false (some t) none = ⟨false, some t, none⟩)) := by
  intro td env jobId m excStr info s arts err
  refine ⟨?_, ?_, ?_, ?_⟩
  · intro h
    constructor
    · simp [run_job, h]
    · simp [run_job, h, complete_count]
  · intro h1 h2 h3 h4
    have hm : info.command ∈ td := by simpa using h3
    constructor
    · simp [run_job, h1, h2, hm, h4]
    · simp [run_job, h1, h2, hm, h4, complete_count, List.countP_cons]
  · intro h1 h2 h3 h4
    have hm : info.command ∈ td := by simpa using h3
    constructor
    · simp [run_job, h1, h2, hm, h4]
    · simp [run_job, h1, h2, hm, h4, complete_count, List.countP_cons]
  · intro t; rfl

/-- Witness for C4: a registered task that raises with traceback text boom is
reported as a failed completion exactly once. -/
theorem C4_coordinator_witness :
    run_job ["cmdA"] env_task_fail "job1"
      = (.ok (), [.getJobInfo "job1", .startHeartbeat "job1",
          .completeJob "job1" (format_payload false
            (some ("Error executing " ++ "cmdA" ++ ":\n" ++ "boom")) none)]) ∧
    complete_count (run_job ["cmdA"] env_task_fail "job1").2 = 1 :=
  (C4_coordinator ["cmdA"] env_task_fail "job1" "" "boom" ⟨"cmdA", "params"⟩
      false none none).2.1 rfl rfl (by decide) rfl

/-- Claim C7: patch raises ValueError before any network send when op is one
of add, replace, test with no value, or one of move, copy with no fromPath;
otherwise it sends the JSON-Patch body holding op and path, with value and
from present exactly when supplied. -/
theorem C7_patch_contract :
    ∀ (surl url op path : String) (value from_p : Option String)
      (att : Nat → AttemptInput),
      ((["add", "replace", "test"].contains op = true → value = none →
          patch surl url op path value from_p att
            = ⟨0, none, .error (.valueError
                ("Operation \x27" ++ op ++ "\x27 requires the paramater \x27value\x27"))⟩) ∧
       (["move", "copy"].contains op = true → from_p = none →
          patch surl url op path value from_p att
            = ⟨0, none, .error (.valueError
                ("Operation \x27" ++ op ++ "\x27 requires the parameter \x27from_p\x27"))⟩) ∧
       ((["add", "replace", "test"].contains op && value.isNone) = false →
        (["move", "copy"].contains op && from_p.isNone) = false →
          patch surl url op path value from_p att
            = ⟨(request_retry "patch" surl url att).attemptsUsed,
               some (patch_body_data op path value from_p),
               (request_retry "patch" surl url att).outcome⟩ ∧
          (patch_body_data op path value from_p).lookup "value" = value ∧
          (patch_body_data op path value from_p).lookup "from" = from_p ∧
          (patch_body_data op path value from_p).lookup "op" = some op ∧
          (patch_body_data op path value from_p).lookup "path" = some path)) := by
  intro surl url op path value from_p att
  refine ⟨?_, ?_, ?_⟩
  · intro hop hv
    have hmem : op = "add" ∨ op = "replace" ∨ op = "test" := by simpa using hop
    rcases hmem with rfl | rfl | rfl <;> simp [patch, hv]
  · intro hop hf
    have hmem : op = "move" ∨ op = "copy" := by simpa using hop
    rcases hmem with rfl | rfl <;> simp [patch, hf]
  · intro h1 h2
    have h1p : ¬((op = "add" ∨ op = "replace" ∨ op = "test") ∧ value = none) := by
      rintro ⟨ho, hv⟩
      have ht : (["add", "replace", "test"].contains op && value.isNone) = true := by
        rcases ho with rfl | rfl | rfl <;> simp [hv]
      exact Bool.false_ne_true (h1 ▸ ht)
    have h2p : ¬((op = "move" ∨ op = "copy") ∧ from_p = none) := by
      rintro ⟨ho, hf⟩
      have ht : (["move", "copy"].contains op && from_p.isNone) = true := by
        rcases ho with rfl | rfl <;> simp [hf]
      exact Bool.false_ne_true (h2 ▸ ht)
    refine ⟨by simp [patch, h1p, h2p], ?_, ?_, ?_, ?_⟩ <;>
      cases value <;> cases from_p <;> simp [patch_body_data, List.lookup]

/-- Witness for C7 at the spec's Scenario E: patch with op add and no value
fails with ValueError and zero network sends. -/
theorem C7_patch_contract_witness :
    patch "https://server" "/qiita_db/x" "add" "/x" none none att_ok
      = ⟨0, none, .error (.valueError
          ("Operation \x27" ++ "add" ++ "\x27 requires the paramater \x27value\x27"))⟩ :=
  (C7_patch_contract "https://server" "/qiita_db/x" "add" "/x" none none att_ok).1
    (by decide) rfl

end Qiita
